import Mathlib

/-!
Shallow embedding of `src/roble_client.py`: an `AuthenticationClient`
holding bearer-token state on a shared `requests.Session`, and a
`ProductClient` issuing CRUD calls through a one-shot
refresh-and-retry executor (`_request`).

Network responses are passed in as explicit parameters (an oracle):
each embedded operation takes the response(s) the remote would return
and produces the new client state together with the Python function's
result.  Exceptions that propagate out of the Python code are modelled
with `Except`.
-/

namespace Roble

/-- A Python value as it appears in the record dictionaries of this
client: the records hold strings (name, description, `_id`) and
integers (quantity). -/
inductive PyVal where
  | str (s : String)
  | int (n : Int)
deriving DecidableEq, Repr

/-- A record is a Python dict from field name to value. -/
def Record := List (String × PyVal)
deriving DecidableEq, Repr

/-- `d.get(k)`: first binding of `k`, or `None`. -/
def Record.get (r : Record) (k : String) : Option PyVal :=
  (r.find? (fun p => p.1 == k)).map (fun p => p.2)

/-- Python truthiness of an optional string (`not x` is true for
`None` and for the empty string). -/
def truthy : Option String → Bool
  | none => false
  | some s => s ≠ ""

/-- Python truthiness of an optional `PyVal` (for `if pid:` where
`pid = p.get('_id')`). -/
def truthyV : Option PyVal → Bool
  | none => false
  | some (.str s) => s ≠ ""
  | some (.int n) => n ≠ 0

/-- Python string interpolation of an optional token:
`f"Bearer {self.access_token}"` prints `None` for an absent token. -/
def pyStr : Option String → String
  | none => "None"
  | some s => s

/-- The body of an HTTP response, as far as this client inspects it:
either it fails to parse as JSON (`resp.json()` raises `ValueError`),
or it is a JSON object from which the client reads the optional
`accessToken` and `refreshToken` fields. -/
inductive Body where
  | notJson (text : String)
  | json (accessToken : Option String) (refreshToken : Option String)
  | jsonList (records : List Record)
deriving DecidableEq, Repr

/-- An HTTP response: status code and body. -/
structure Response where
  status : Nat
  body : Body
deriving DecidableEq, Repr

/-- `resp.raise_for_status()` raises `requests.HTTPError` exactly for
4xx and 5xx status codes. -/
def raisesForStatus (status : Nat) : Bool :=
  (400 ≤ status && status < 600)

/-- The mutable state of `AuthenticationClient` that the claims are
about: the stored token pair and the `Authorization` header of the
shared `requests.Session` (shared with `ProductClient`). -/
structure AuthState where
  access_token : Option String
  refresh_token : Option String
  authHeader : Option String
deriving DecidableEq, Repr

/-- Errors that propagate out of the embedded Python code:
`requests.HTTPError` (carrying the status) from `raise_for_status`,
or `ValueError` from `resp.json()` on a non-JSON body. -/
inductive PyErr where
  | httpError (status : Nat)
  | valueError
  | attributeError
deriving DecidableEq, Repr

/-- `AuthenticationClient.login` after the interactive prompts: POST
to `/login`; on an error status print and return `False`; otherwise
parse the body (a non-JSON body raises `ValueError` uncaught), store
`accessToken`/`refreshToken` via `dict.get`, set the session's
`Authorization` header to `Bearer {access_token}`, return `True`. -/
def login (st : AuthState) (resp : Response) : AuthState × Except PyErr Bool :=
  if raisesForStatus resp.status then
    (st, .ok false)
  else
    match resp.body with
    | .notJson _ => (st, .error .valueError)
    | .jsonList _ => (st, .error .attributeError)
    | .json at_ rt =>
        let st := { st with access_token := at_, refresh_token := rt }
        let st := { st with authHeader := some ("Bearer " ++ pyStr at_) }
        (st, .ok true)

/-- `AuthenticationClient.logout`: POST to `/logout`; on an error
status print and return `False`; otherwise pop the `Authorization`
header, clear both tokens, return `True`. -/
def logout (st : AuthState) (resp : Response) : AuthState × Bool :=
  if raisesForStatus resp.status then
    (st, false)
  else
    ({ access_token := none, refresh_token := none, authHeader := none }, true)

/-- Result of `AuthenticationClient.refresh`: new state, returned
boolean (or propagated exception), and the number of network requests
issued to the refresh-token endpoint (0 or 1). -/
structure RefreshOut where
  state : AuthState
  res : Except PyErr Bool
  calls : Nat
deriving Repr

/-- `AuthenticationClient.refresh`: if no (truthy) refresh token is
held, return `False` without a network call.  Otherwise POST the
refresh token; on a status other than 200/201 return `False`; on a
non-JSON body catch the `ValueError` and return `False` (a JSON array
body parses, but `data.get` then raises `AttributeError`, uncaught);
otherwise assign `self.access_token = data.get('accessToken')` and,
if that is falsy, return `False`; else update the `Authorization`
header and return `True`. -/
def refresh (st : AuthState) (resp : Response) : RefreshOut :=
  if ¬ truthy st.refresh_token then
    ⟨st, .ok false, 0⟩
  else
    if resp.status ≠ 200 ∧ resp.status ≠ 201 then
      ⟨st, .ok false, 1⟩
    else
      match resp.body with
      | .notJson _ => ⟨st, .ok false, 1⟩
      | .jsonList _ => ⟨st, .error .attributeError, 1⟩
      | .json at_ _ =>
          let st1 := { st with access_token := at_ }
          if ¬ truthy at_ then
            ⟨st1, .ok false, 1⟩
          else
            ⟨{ st1 with authHeader := some ("Bearer " ++ pyStr at_) }, .ok true, 1⟩

/-- The header-consistency invariant of the spec: an access token is
stored iff the session carries `Authorization: Bearer <that token>`;
with no stored token the session carries no `Authorization` header. -/
def headerInv (st : AuthState) : Bool :=
  match st.access_token with
  | some s => st.authHeader == some ("Bearer " ++ s)
  | none => st.authHeader == none

/-- A login response that does not hit the header-breaking path: any
error status, or any body other than a parsed JSON object missing
`accessToken`. -/
def loginSafe (resp : Response) : Bool :=
  raisesForStatus resp.status ||
    match resp.body with
    | .json none _ => false
    | _ => true

/-- A refresh response that does not hit the header-breaking path:
any body other than a JSON object that is parsed (status 200/201) yet
carries a falsy `accessToken`. -/
def refreshSafe (resp : Response) : Bool :=
  match resp.body with
  | .json at_ _ => (resp.status != 200 && resp.status != 201) || truthy at_
  | _ => true

/-- The JSON kwargs a `ProductClient` CRUD call passes to
`session.request`. -/
inductive Payload where
  | readParams (tableName : String)
  | insert (tableName : String) (records : List Record)
  | update (tableName idColumn : String) (idValue : PyVal) (updates : Record)
  | delete (tableName idColumn : String) (idValue : PyVal)
deriving DecidableEq, Repr

/-- A request descriptor: the `(method, url, **kwargs)` triple handed
to `ProductClient._request`. -/
structure Descriptor where
  method : String
  url : String
  payload : Payload
deriving DecidableEq, Repr

/-- One request as it went out on the wire: the descriptor plus the
`Authorization` header the shared session carried at that moment. -/
structure Issued where
  desc : Descriptor
  header : Option String
deriving DecidableEq, Repr

/-- Result of one `ProductClient._request` execution: the auth state
afterwards, the returned response or the raised `HTTPError`, the data
requests issued in order, and the number of invocations of
`auth_client.refresh`. -/
structure ExecOut where
  state : AuthState
  result : Except PyErr Response
  issued : List Issued
  refreshCalls : Nat
deriving Repr

/-- `ProductClient._request`: issue the request; if the response
status is 401, invoke `auth_client.refresh()` and, if it returns
`True`, re-issue the same `(method, url, **kwargs)` once (the session
now carries the refreshed header); finally `raise_for_status` on
whichever response is current.  `r1` is the remote's response to the
first issue, `rr` to the refresh-token call, `r2` to the replay. -/
def priv_request (d : Descriptor) (st : AuthState) (r1 rr r2 : Response) : ExecOut :=
  if r1.status = 401 then
    let ro := refresh st rr
    match ro.res with
    | .error e => ⟨ro.state, .error e, [⟨d, st.authHeader⟩], 1⟩
    | .ok true =>
      let issued := [⟨d, st.authHeader⟩, ⟨d, ro.state.authHeader⟩]
      if raisesForStatus r2.status then
        ⟨ro.state, .error (.httpError r2.status), issued, 1⟩
      else
        ⟨ro.state, .ok r2, issued, 1⟩
    | .ok false =>
      let issued := [⟨d, st.authHeader⟩]
      if raisesForStatus r1.status then
        ⟨ro.state, .error (.httpError r1.status), issued, 1⟩
      else
        ⟨ro.state, .ok r1, issued, 1⟩
  else
    let issued := [⟨d, st.authHeader⟩]
    if raisesForStatus r1.status then
      ⟨st, .error (.httpError r1.status), issued, 0⟩
    else
      ⟨st, .ok r1, issued, 0⟩

/-- The configuration of a `ProductClient` (the table name is fixed to
`'Product'` in `__init__`). -/
structure ProductClient where
  base_host : String
  contract : String
  table : String := "Product"
deriving DecidableEq, Repr

def ProductClient.read_url (c : ProductClient) : String :=
  "https://" ++ c.base_host ++ "/database/" ++ c.contract ++ "/read"

def ProductClient.insert_url (c : ProductClient) : String :=
  "https://" ++ c.base_host ++ "/database/" ++ c.contract ++ "/insert"

def ProductClient.update_url (c : ProductClient) : String :=
  "https://" ++ c.base_host ++ "/database/" ++ c.contract ++ "/update"

def ProductClient.delete_url (c : ProductClient) : String :=
  "https://" ++ c.base_host ++ "/database/" ++ c.contract ++ "/delete"

/-- `ProductClient.add_product`: POST a single-record batch through
`_request`; any `HTTPError` propagates, otherwise return `True`. -/
def add_product (c : ProductClient) (product : Record) (st : AuthState)
    (r1 rr r2 : Response) : AuthState × Except PyErr Bool :=
  let out := priv_request ⟨"POST", c.insert_url, .insert c.table [product]⟩ st r1 rr r2
  match out.result with
  | .error e => (out.state, .error e)
  | .ok _ => (out.state, .ok true)

/-- `ProductClient.update_product`: PUT an update addressed by the
`_id` column through `_request`; any `HTTPError` propagates,
otherwise return `True`. -/
def update_product (c : ProductClient) (product_id : PyVal) (updates : Record)
    (st : AuthState) (r1 rr r2 : Response) : AuthState × Except PyErr Bool :=
  let out := priv_request ⟨"PUT", c.update_url, .update c.table "_id" product_id updates⟩
      st r1 rr r2
  match out.result with
  | .error e => (out.state, .error e)
  | .ok _ => (out.state, .ok true)

/-- `ProductClient.delete_product`: DELETE addressed by the `_id`
column through `_request`; any `HTTPError` propagates, otherwise
return `True`. -/
def delete_product (c : ProductClient) (product_id : PyVal) (st : AuthState)
    (r1 rr r2 : Response) : AuthState × Except PyErr Bool :=
  let out := priv_request ⟨"DELETE", c.delete_url, .delete c.table "_id" product_id⟩
      st r1 rr r2
  match out.result with
  | .error e => (out.state, .error e)
  | .ok _ => (out.state, .ok true)

/-- `ProductClient.get_products`: GET the collection through
`_request` and parse the body as a list of records.  A non-JSON body
makes `resp.json()` raise `ValueError`; the data endpoint's read
interface returns a JSON array, so a JSON body that is not an array is
mapped to `ValueError` as well (downstream iteration over it would
fail in Python; no claim depends on that case). -/
def get_products (c : ProductClient) (st : AuthState) (r1 rr r2 : Response) :
    AuthState × Except PyErr (List Record) :=
  let out := priv_request ⟨"GET", c.read_url, .readParams c.table⟩ st r1 rr r2
  match out.result with
  | .error e => (out.state, .error e)
  | .ok resp =>
      match resp.body with
      | .jsonList l => (out.state, .ok l)
      | _ => (out.state, .error .valueError)

/-- Result of `ProductClient.delete_all_products`: the auth state
afterwards, the `_id` values passed to `delete_product` in order, and
whether the function returned normally or an exception propagated. -/
structure DeleteAllOut where
  state : AuthState
  deleted : List PyVal
  result : Except PyErr Unit
deriving Repr

/-- The loop of `delete_all_products`: for each record, read
`p.get('_id')` and, if it is truthy, delete by that id.  `net k`
supplies the response triple for the `k`-th delete call; an
`HTTPError` from a delete propagates immediately, aborting the
loop. -/
def delete_all_loop (c : ProductClient) (net : Nat → Response × Response × Response) :
    AuthState → Nat → List Record → DeleteAllOut
  | st, _, [] => ⟨st, [], .ok ()⟩
  | st, k, p :: ps =>
      let pid := p.get "_id"
      if truthyV pid then
        match pid with
        | some v =>
            let (r1, rr, r2) := net k
            let (st1, res) := delete_product c v st r1 rr r2
            match res with
            | .error e => ⟨st1, [v], .error e⟩
            | .ok _ =>
                let rest := delete_all_loop c net st1 (k + 1) ps
                ⟨rest.state, v :: rest.deleted, rest.result⟩
        | none => delete_all_loop c net st k ps
      else
        delete_all_loop c net st k ps

/-- `ProductClient.delete_all_products`: list all records via
`get_products` (responses `l1 lrr l2`), then delete each record whose
`_id` is truthy, sequentially in list order. -/
def delete_all_products (c : ProductClient) (st : AuthState)
    (l1 lrr l2 : Response) (net : Nat → Response × Response × Response) : DeleteAllOut :=
  match get_products c st l1 lrr l2 with
  | (st1, .error e) => ⟨st1, [], .error e⟩
  | (st1, .ok products) => delete_all_loop c net st1 0 products

/-- The truthy `_id` values of a record list, in order: exactly the
identifiers `delete_all_products` deletes by. -/
def truthyIds (products : List Record) : List PyVal :=
  products.filterMap (fun p =>
    let pid := p.get "_id"
    if truthyV pid then pid else none)

/-- `string.ascii_letters + string.digits`: the population
`random.choices` draws name/description suffix characters from. -/
def alphanum : List Char :=
  ("abcdefghijklmnopqrstuvwxyzABCDEFGHIJKLMNOPQRSTUVWXYZ" ++ "0123456789").toList

/-- One draw of `random.choices`, modelled over a stream `rng` of
non-deterministic naturals: some element of the population. -/
def drawChar (rng : Nat → Nat) (i : Nat) : Char :=
  alphanum.get ⟨rng i % alphanum.length, Nat.mod_lt _ (by decide)⟩

/-- `''.join(random.choices(alphanum, k))` starting at stream
position `start`. -/
def randChars (rng : Nat → Nat) (start k : Nat) : List Char :=
  (List.range k).map (fun i => drawChar rng (start + i))

/-- `random.randint(1, 100)` at stream position `i`: a value in
`[1, 100]`. -/
def randQty (rng : Nat → Nat) (i : Nat) : Int :=
  1 + (rng i % 100)

/-- The synthetic record built in iteration `j` of
`add_random_products`; each iteration consumes 8 + 16 + 1 = 25
draws. -/
def randomProduct (rng : Nat → Nat) (j : Nat) : Record :=
  [ ("name", .str ("Producto-" ++ String.mk (randChars rng (25 * j) 8))),
    ("description", .str ("Descripción " ++ String.mk (randChars rng (25 * j + 8) 16))),
    ("quantity", .int (randQty rng (25 * j + 24))) ]

/-- Result of `ProductClient.add_random_products`: the auth state
afterwards, the records passed to `add_product` in order, and the
returned list of generated names (or the propagated exception). -/
structure SeedOut where
  state : AuthState
  inserted : List Record
  result : Except PyErr (List String)
deriving Repr

/-- The loop of `add_random_products`: in iteration `j`, generate a
random record, insert it via `add_product` (responses from `net j`),
and append its name; an `HTTPError` propagates, losing the collected
names. -/
def add_random_loop (c : ProductClient) (rng : Nat → Nat)
    (net : Nat → Response × Response × Response) :
    AuthState → Nat → Nat → SeedOut
  | st, _, 0 => ⟨st, [], .ok []⟩
  | st, j, m + 1 =>
      let product := randomProduct rng j
      let (r1, rr, r2) := net j
      let (st1, res) := add_product c product st r1 rr r2
      match res with
      | .error e => ⟨st1, [product], .error e⟩
      | .ok _ =>
          let rest := add_random_loop c rng net st1 (j + 1) m
          match rest.result with
          | .error e => ⟨rest.state, product :: rest.inserted, .error e⟩
          | .ok names =>
              ⟨rest.state, product :: rest.inserted,
               .ok (("Producto-" ++ String.mk (randChars rng (25 * j) 8)) :: names)⟩

/-- `ProductClient.add_random_products(n)`: insert `n` random records
sequentially and return the generated names. -/
def add_random_products (c : ProductClient) (st : AuthState) (n : Nat)
    (rng : Nat → Nat) (net : Nat → Response × Response × Response) : SeedOut :=
  add_random_loop c rng net st 0 n

/-! ## Theorems -/

/-- Helper: `refresh` leaves the stored refresh token unchanged on
every path. -/
theorem refresh_state_rt (st : AuthState) (resp : Response) :
    (refresh st resp).state.refresh_token = st.refresh_token := by
  unfold refresh
  split
  · rfl
  · split
    · rfl
    · split
      · rfl
      · rfl
      · dsimp only
        split
        · rfl
        · rfl

/-- Helper: whenever `refresh` returns `False`, the session's
`Authorization` header is unchanged (the header is only written on
the success path). -/
theorem refresh_state_header (st : AuthState) (resp : Response) :
    (refresh st resp).res = .ok false →
    (refresh st resp).state.authHeader = st.authHeader := by
  unfold refresh
  split
  · intro _; rfl
  · split
    · intro _; rfl
    · split
      · intro _; rfl
      · intro h; exact absurd h (by simp)
      · dsimp only
        split
        · intro _; rfl
        · intro h; exact absurd h (by simp)

/-- C9: `AuthenticationClient.refresh` never modifies the stored
refresh token: on every execution path (missing-token guard, bad
status, non-JSON body, JSON-array body, missing/empty `accessToken`,
or success) the refresh token after the call equals the one held
before. -/
theorem refresh_preserves_refresh_token (st : AuthState) (resp : Response) :
    (refresh st resp).state.refresh_token = st.refresh_token :=
  refresh_state_rt st resp

/-- C6: with no refresh token held, `refresh()` returns `False`
immediately, issues no network request, and leaves the stored
credentials and the session header unchanged. -/
theorem refresh_no_token (st : AuthState) (resp : Response)
    (h : st.refresh_token = none) :
    refresh st resp = ⟨st, .ok false, 0⟩ := by
  unfold refresh
  rw [h]
  simp [truthy]

theorem refresh_no_token_witness :
    refresh ⟨some "A", none, some "Bearer A"⟩ ⟨200, .json (some "B") none⟩ =
      ⟨⟨some "A", none, some "Bearer A"⟩, .ok false, 0⟩ :=
  refresh_no_token ⟨some "A", none, some "Bearer A"⟩ ⟨200, .json (some "B") none⟩ rfl

/-- C5 as stated is false: it calls every 2xx response with a good
body a successful refresh, but the code accepts only 200 and 201
(`resp.status_code not in (200, 201)`).  At status 204 with body
`{"accessToken": "A2"}` and a held refresh token, `refresh` returns
`False` and leaves the access token untouched instead of updating it
and returning success. -/
theorem refresh_204_cex :
    (refresh ⟨some "A", some "R", some "Bearer A"⟩ ⟨204, .json (some "A2") none⟩).res
        = .ok false ∧
    (refresh ⟨some "A", some "R", some "Bearer A"⟩ ⟨204, .json (some "A2") none⟩).state
        = ⟨some "A", some "R", some "Bearer A"⟩ :=
  ⟨rfl, rfl⟩

/-- C5 amended: for every refresh call answered with status 200 or
201 and a parsable JSON body carrying a non-empty `accessToken`,
refresh returns success and updates only the access token (and the
session header): the refresh token held afterward equals the one held
before. -/
theorem refresh_success_frame (st : AuthState) (resp : Response) (a : String)
    (rt : Option String) (hg : truthy st.refresh_token = true)
    (hs : resp.status = 200 ∨ resp.status = 201)
    (hb : resp.body = .json (some a) rt) (ha : a ≠ "") :
    (refresh st resp).res = .ok true ∧
    (refresh st resp).state.refresh_token = st.refresh_token ∧
    (refresh st resp).state.access_token = some a ∧
    (refresh st resp).state.authHeader = some ("Bearer " ++ a) := by
  unfold refresh
  rw [hb, hg]
  rcases hs with hs | hs <;>
    simp [hs, truthy, pyStr, ha]

theorem refresh_success_frame_witness :
    (refresh ⟨some "A", some "R", some "Bearer A"⟩ ⟨200, .json (some "A2") none⟩).res
        = .ok true ∧
    (refresh ⟨some "A", some "R", some "Bearer A"⟩
        ⟨200, .json (some "A2") none⟩).state.refresh_token = some "R" ∧
    (refresh ⟨some "A", some "R", some "Bearer A"⟩
        ⟨200, .json (some "A2") none⟩).state.access_token = some "A2" ∧
    (refresh ⟨some "A", some "R", some "Bearer A"⟩
        ⟨200, .json (some "A2") none⟩).state.authHeader = some ("Bearer " ++ "A2") :=
  refresh_success_frame ⟨some "A", some "R", some "Bearer A"⟩
    ⟨200, .json (some "A2") none⟩ "A2" none rfl (Or.inl rfl) rfl (by decide)

/-- C4 as stated is false: `refresh` assigns
`self.access_token = data.get('accessToken')` before validating it,
so a 200 response whose JSON body lacks `accessToken` returns failure
but overwrites the stored access token (here: from `some "A"` to
`none`), while the stale header survives. -/
theorem refresh_failure_mutates_cex :
    (refresh ⟨some "A", some "R", some "Bearer A"⟩ ⟨200, .json none none⟩).res
        = .ok false ∧
    (refresh ⟨some "A", some "R", some "Bearer A"⟩ ⟨200, .json none none⟩).state
        = ⟨none, some "R", some "Bearer A"⟩ :=
  ⟨rfl, rfl⟩

/-- C4 amended: every refresh failure after the guard returns `False`
and leaves the refresh token and the session's `Authorization` header
unchanged; the stored access token is also unchanged when the status
is not 200/201 or the body is not JSON, but when a 200/201 JSON body
carries a missing or empty `accessToken` the stored access token is
overwritten with that falsy value before the failure return. -/
theorem refresh_failure_frame (st : AuthState) (resp : Response)
    (hg : truthy st.refresh_token = true) :
    ((refresh st resp).res = .ok false →
        (refresh st resp).state.refresh_token = st.refresh_token ∧
        (refresh st resp).state.authHeader = st.authHeader) ∧
    (¬ (resp.status = 200 ∨ resp.status = 201) →
        refresh st resp = ⟨st, .ok false, 1⟩) ∧
    (∀ t, resp.body = .notJson t → (resp.status = 200 ∨ resp.status = 201) →
        refresh st resp = ⟨st, .ok false, 1⟩) ∧
    (∀ at_ rt, resp.body = .json at_ rt → truthy at_ = false →
        (resp.status = 200 ∨ resp.status = 201) →
        (refresh st resp).state = { st with access_token := at_ } ∧
        (refresh st resp).res = .ok false) := by
  refine ⟨?_, ?_, ?_, ?_⟩
  · intro hres
    exact ⟨refresh_state_rt st resp, refresh_state_header st resp hres⟩
  · intro hns
    have h1 : resp.status ≠ 200 := fun h => hns (Or.inl h)
    have h2 : resp.status ≠ 201 := fun h => hns (Or.inr h)
    unfold refresh
    simp [hg, h1, h2]
  · intro t hb hs
    unfold refresh
    rcases hs with hs | hs <;> simp [hg, hb, hs]
  · intro at_ rt hb hfalsy hs
    unfold refresh
    rcases hs with hs | hs <;> simp [hg, hb, hs, hfalsy]

theorem refresh_failure_frame_witness :
    refresh ⟨some "A", some "R", some "Bearer A"⟩ ⟨500, .notJson "server error"⟩ =
      ⟨⟨some "A", some "R", some "Bearer A"⟩, .ok false, 1⟩ :=
  (refresh_failure_frame ⟨some "A", some "R", some "Bearer A"⟩
      ⟨500, .notJson "server error"⟩ rfl).2.1 (by decide)

/-- C3 as stated is false: a login answered with 2xx whose JSON body
lacks `accessToken` is not reported as a failure and does not leave
the stored credentials untouched — `login` returns `True`, overwrites
both tokens with the body's (absent) values, and sets the session
header to the literal `Bearer None`. -/
theorem login_malformed_cex :
    login ⟨some "A", some "R", some "Bearer A"⟩ ⟨200, .json none none⟩ =
      (⟨none, none, some "Bearer None"⟩, .ok true) :=
  rfl

/-- C3 amended: a login attempt answered with a 4xx/5xx status
returns failure and leaves the previously stored access token,
refresh token, and authorization header exactly as they were; a
non-JSON body likewise leaves them untouched (the `ValueError` from
`resp.json()` propagates).  A parsed 2xx body missing `accessToken`,
however, is treated as success: it overwrites the stored tokens with
the body's values and sets the header from them. -/
theorem login_failure_frame (st : AuthState) (resp : Response) :
    (raisesForStatus resp.status = true → login st resp = (st, .ok false)) ∧
    (∀ t, resp.body = .notJson t → raisesForStatus resp.status = false →
        login st resp = (st, .error .valueError)) := by
  constructor
  · intro hs
    unfold login
    simp [hs]
  · intro t hb hs
    unfold login
    simp [hs, hb]

theorem login_failure_frame_witness :
    login ⟨some "A", some "R", some "Bearer A"⟩ ⟨401, .json (some "B") none⟩ =
      (⟨some "A", some "R", some "Bearer A"⟩, .ok false) :=
  (login_failure_frame ⟨some "A", some "R", some "Bearer A"⟩
      ⟨401, .json (some "B") none⟩).1 rfl

/-- C2 as stated is false: from a state satisfying the header
invariant, a refresh answered 200 with a JSON body lacking
`accessToken` is an unrecoverable refresh failure, yet afterwards the
stored access token is gone while the session still carries the stale
`Authorization: Bearer A` header — so a subsequent outbound call
would still send an authorization header. -/
theorem header_inv_cex :
    headerInv ⟨some "A", some "R", some "Bearer A"⟩ = true ∧
    (refresh ⟨some "A", some "R", some "Bearer A"⟩ ⟨200, .json none none⟩).res
        = .ok false ∧
    headerInv (refresh ⟨some "A", some "R", some "Bearer A"⟩
        ⟨200, .json none none⟩).state = false ∧
    (refresh ⟨some "A", some "R", some "Bearer A"⟩
        ⟨200, .json none none⟩).state.authHeader = some "Bearer A" :=
  ⟨rfl, rfl, rfl, rfl⟩

/-- C2 amended: the header-consistency invariant is preserved by
`logout` on every response, and by `login` and `refresh` on every
response except the header-breaking one — a parsed JSON-object body
whose `accessToken` is missing (login) or falsy (refresh, status
200/201).  On those excluded responses the invariant can break: login
stores no token yet sets `Bearer None`, refresh drops the token yet
keeps the stale header. -/
theorem header_inv_preserved (st : AuthState) (resp : Response)
    (hinv : headerInv st = true) :
    headerInv (logout st resp).1 = true ∧
    (loginSafe resp = true → headerInv (login st resp).1 = true) ∧
    (refreshSafe resp = true → headerInv (refresh st resp).state = true) := by
  refine ⟨?_, ?_, ?_⟩
  · unfold logout
    split
    · exact hinv
    · rfl
  · intro hsafe
    unfold login
    by_cases hs : raisesForStatus resp.status = true
    · simp [hs, hinv]
    · have hs' : raisesForStatus resp.status = false := by
        revert hs; cases raisesForStatus resp.status <;> simp
      cases hb : resp.body with
      | notJson t => simp [hs', hb, hinv]
      | jsonList l => simp [hs', hb, hinv]
      | json at_ rt =>
          cases at_ with
          | none =>
              exfalso
              unfold loginSafe at hsafe
              rw [hb, hs'] at hsafe
              simp at hsafe
          | some s => simp [hs', hb, headerInv, pyStr]
  · intro hsafe
    unfold refresh
    by_cases hg : truthy st.refresh_token = true
    · by_cases hs2 : resp.status ≠ 200 ∧ resp.status ≠ 201
      · simp [hg, hs2, hinv]
      · cases hb : resp.body with
        | notJson t => simp [hg, hs2, hb, hinv]
        | jsonList l => simp [hg, hs2, hb, hinv]
        | json at_ rt =>
            have hbe : (resp.status != 200 && resp.status != 201) = false := by
              rcases not_and_or.mp hs2 with h | h
              · have := not_not.mp h
                simp [this]
              · have := not_not.mp h
                simp [this]
            have htr : truthy at_ = true := by
              unfold refreshSafe at hsafe
              rw [hb, hbe] at hsafe
              simpa using hsafe
            cases at_ with
            | none => simp [truthy] at htr
            | some s =>
                simp [hg, hs2, hb, htr, headerInv, pyStr]
    · have hg' : truthy st.refresh_token = false := by
        revert hg; cases truthy st.refresh_token <;> simp
      simp [hg', hinv]

theorem header_inv_preserved_witness :
    headerInv (refresh ⟨some "A", some "R", some "Bearer A"⟩
        ⟨200, .json (some "A2") none⟩).state = true :=
  (header_inv_preserved ⟨some "A", some "R", some "Bearer A"⟩
      ⟨200, .json (some "A2") none⟩ rfl).2.2 rfl

/-- C1: in `ProductClient._request`, refresh is invoked at most once
and the same descriptor is issued once or twice (never more); when
the initial response is 401, refresh is invoked exactly once, and if
it fails the 401 is surfaced as an `HTTPError` with no replay, while
if it succeeds and the replay still fails, the replay's error status
is surfaced with no further refresh or replay. -/
theorem exec_one_shot_retry (d : Descriptor) (st : AuthState) (r1 rr r2 : Response) :
    (priv_request d st r1 rr r2).refreshCalls ≤ 1 ∧
    ((priv_request d st r1 rr r2).issued.map Issued.desc = [d] ∨
      (priv_request d st r1 rr r2).issued.map Issued.desc = [d, d]) ∧
    (r1.status = 401 →
      (priv_request d st r1 rr r2).refreshCalls = 1 ∧
      ((refresh st rr).res = .ok false →
        (priv_request d st r1 rr r2).result = .error (.httpError 401) ∧
        (priv_request d st r1 rr r2).issued.map Issued.desc = [d]) ∧
      ((refresh st rr).res = .ok true → raisesForStatus r2.status = true →
        (priv_request d st r1 rr r2).result = .error (.httpError r2.status) ∧
        (priv_request d st r1 rr r2).issued.map Issued.desc = [d, d])) := by
  by_cases h401 : r1.status = 401
  · have hr : raisesForStatus r1.status = true := by rw [h401]; rfl
    cases hres : (refresh st rr).res with
    | error e =>
        unfold priv_request
        simp [h401, hres]
    | ok b =>
        cases b
        · have h401' : raisesForStatus 401 = true := rfl
          unfold priv_request
          simp [h401, hres, h401']
        · unfold priv_request
          by_cases h2 : raisesForStatus r2.status = true
          · simp [h401, hres, h2]
          · have h2' : raisesForStatus r2.status = false := by
              revert h2; cases raisesForStatus r2.status <;> simp
            simp [h401, hres, h2']
  · unfold priv_request
    by_cases hr : raisesForStatus r1.status = true
    · simp [h401, hr]
    · have hr' : raisesForStatus r1.status = false := by
        revert hr; cases raisesForStatus r1.status <;> simp
      simp [h401, hr']

theorem exec_one_shot_retry_witness :
    (priv_request ⟨"GET", "u", .readParams "Product"⟩ ⟨none, none, none⟩
        ⟨401, .json none none⟩ ⟨200, .json none none⟩ ⟨200, .json none none⟩).result
      = .error (.httpError 401) ∧
    (priv_request ⟨"GET", "u", .readParams "Product"⟩ ⟨none, none, none⟩
        ⟨401, .json none none⟩ ⟨200, .json none none⟩ ⟨200, .json none none⟩).issued.map
        Issued.desc = [⟨"GET", "u", .readParams "Product"⟩] :=
  ((exec_one_shot_retry ⟨"GET", "u", .readParams "Product"⟩ ⟨none, none, none⟩
      ⟨401, .json none none⟩ ⟨200, .json none none⟩ ⟨200, .json none none⟩).2.2
    rfl).2.1 rfl

/-- Helper: the common return shape of the three CRUD mutators — an
`HTTPError` propagates, any normal return is `True`. -/
theorem crud_ok_helper (out : ExecOut) (b : Bool)
    (h : ((match out.result with
        | Except.error e => (out.state, Except.error e)
        | Except.ok _ => (out.state, Except.ok true)) :
          AuthState × Except PyErr Bool).2 = .ok b) :
    b = true := by
  rcases hres : out.result with e | resp <;> rw [hres] at h <;> simp at h
  exact h

/-- C10: `add_product`, `update_product`, and `delete_product` return
`True` whenever they return normally — a failing status left after
the one-shot refresh-and-retry makes `_request` raise, so no `False`
(or other value) is ever returned. -/
theorem crud_returns_true (c : ProductClient) (product : Record) (pid : PyVal)
    (updates : Record) (st : AuthState) (r1 rr r2 : Response) (b : Bool) :
    ((add_product c product st r1 rr r2).2 = .ok b → b = true) ∧
    ((update_product c pid updates st r1 rr r2).2 = .ok b → b = true) ∧
    ((delete_product c pid st r1 rr r2).2 = .ok b → b = true) := by
  refine ⟨?_, ?_, ?_⟩
  · intro h
    unfold add_product at h
    exact crud_ok_helper _ b h
  · intro h
    unfold update_product at h
    exact crud_ok_helper _ b h
  · intro h
    unfold delete_product at h
    exact crud_ok_helper _ b h

/-- Helper: the delete loop issues deletes exactly for the truthy
`_id` values, in list order: its issued ids are always a prefix of
`truthyIds`, and on a normal return they are all of them. -/
theorem delete_all_loop_spec (c : ProductClient)
    (net : Nat → Response × Response × Response) (products : List Record) :
    ∀ (st : AuthState) (k : Nat),
      (delete_all_loop c net st k products).deleted <+: truthyIds products ∧
      ((delete_all_loop c net st k products).result = .ok () →
        (delete_all_loop c net st k products).deleted = truthyIds products) := by
  induction products with
  | nil =>
      intro st k
      simp [delete_all_loop, truthyIds]
  | cons p ps ih =>
      intro st k
      by_cases htr : truthyV (p.get "_id") = true
      · cases hpid : p.get "_id" with
        | none => rw [hpid] at htr; simp [truthyV] at htr
        | some v =>
            rw [hpid] at htr
            have hids : truthyIds (p :: ps) = v :: truthyIds ps := by
              unfold truthyIds
              rw [List.filterMap_cons]
              simp only [hpid, htr, if_true]
            unfold delete_all_loop
            rw [hpid]
            simp only [htr, if_true]
            rcases hnet : net k with ⟨r1, rr, r2⟩
            rcases hdel : delete_product c v st r1 rr r2 with ⟨st1, res⟩
            cases res with
            | error e =>
                simp only [hids]
                constructor
                · exact ⟨truthyIds ps, rfl⟩
                · intro hok
                  simp at hok
            | ok b =>
                simp only [hids]
                obtain ⟨⟨t, ht⟩, hcomplete⟩ := ih st1 (k + 1)
                constructor
                · exact ⟨t, by rw [List.cons_append, ht]⟩
                · intro hok
                  rw [hcomplete hok]
      · have hids : truthyIds (p :: ps) = truthyIds ps := by
          unfold truthyIds
          rw [List.filterMap_cons]
          simp only [htr]
          simp
        unfold delete_all_loop
        simp only [htr, Bool.false_eq_true, if_false, hids]
        exact ih st k

/-- C7 as stated is false: `delete_all_products` skips every listed
record whose `_id` is missing (or falsy), so for a returned
collection of N = 1 records with no `_id` field it issues 0 delete
calls, not 1, yet still returns normally. -/
theorem delete_all_cex :
    (delete_all_products ⟨"h", "ct", "Product"⟩ ⟨some "A", some "R", some "Bearer A"⟩
        ⟨200, .jsonList [[("name", .str "x")]]⟩ ⟨200, .json none none⟩
        ⟨200, .json none none⟩
        (fun _ => (⟨200, .json none none⟩, ⟨200, .json none none⟩,
          ⟨200, .json none none⟩))).result = .ok () ∧
    (delete_all_products ⟨"h", "ct", "Product"⟩ ⟨some "A", some "R", some "Bearer A"⟩
        ⟨200, .jsonList [[("name", .str "x")]]⟩ ⟨200, .json none none⟩
        ⟨200, .json none none⟩
        (fun _ => (⟨200, .json none none⟩, ⟨200, .json none none⟩,
          ⟨200, .json none none⟩))).deleted = [] ∧
    ([[("name", PyVal.str "x")]] : List Record).length = 1 :=
  ⟨rfl, rfl, rfl⟩

/-- C7 amended: for every collection of records returned by the list
operation, `delete_all_products` issues exactly one delete call per
listed record whose `_id` field is present and truthy, sequentially
in list order, when all deletes succeed (records without a truthy
`_id` are silently skipped); the ids it has deleted are always a
prefix of those truthy ids, so a failing delete aborts the remainder
and the failure propagates instead of a normal return. -/
theorem delete_all_spec (c : ProductClient) (st : AuthState) (l1 lrr l2 : Response)
    (net : Nat → Response × Response × Response) (products : List Record)
    (hread : (get_products c st l1 lrr l2).2 = .ok products) :
    (delete_all_products c st l1 lrr l2 net).deleted <+: truthyIds products ∧
    ((delete_all_products c st l1 lrr l2 net).result = .ok () →
      (delete_all_products c st l1 lrr l2 net).deleted = truthyIds products) := by
  have hpair : get_products c st l1 lrr l2 =
      ((get_products c st l1 lrr l2).1, Except.ok products) := by
    rw [← hread]
  unfold delete_all_products
  rw [hpair]
  exact delete_all_loop_spec c net products (get_products c st l1 lrr l2).1 0

theorem delete_all_spec_witness :
    (delete_all_products ⟨"h", "ct", "Product"⟩ ⟨none, none, none⟩
        ⟨200, .jsonList [[("_id", .str "1")], [("_id", .str "2")]]⟩
        ⟨200, .json none none⟩ ⟨200, .json none none⟩
        (fun _ => (⟨200, .json none none⟩, ⟨200, .json none none⟩,
          ⟨200, .json none none⟩))).deleted =
      truthyIds [[("_id", .str "1")], [("_id", .str "2")]] :=
  (delete_all_spec ⟨"h", "ct", "Product"⟩ ⟨none, none, none⟩
      ⟨200, .jsonList [[("_id", .str "1")], [("_id", .str "2")]]⟩
      ⟨200, .json none none⟩ ⟨200, .json none none⟩
      (fun _ => (⟨200, .json none none⟩, ⟨200, .json none none⟩,
        ⟨200, .json none none⟩))
      [[("_id", .str "1")], [("_id", .str "2")]] rfl).2 rfl

/-- Helper: a generated suffix has exactly `k` characters. -/
theorem randChars_length (rng : Nat → Nat) (start k : Nat) :
    (randChars rng start k).length = k := by
  simp [randChars]

/-- Helper: every generated character comes from the alphanumeric
population. -/
theorem mem_randChars (rng : Nat → Nat) (start k : Nat) (ch : Char)
    (h : ch ∈ randChars rng start k) : ch ∈ alphanum := by
  unfold randChars at h
  rw [List.mem_map] at h
  obtain ⟨i, _, rfl⟩ := h
  unfold drawChar
  exact List.get_mem alphanum _ _

/-- Helper: the generated quantity lies in `[1, 100]`. -/
theorem randQty_bounds (rng : Nat → Nat) (i : Nat) :
    1 ≤ randQty rng i ∧ randQty rng i ≤ 100 := by
  unfold randQty
  have := Nat.mod_lt (rng i) (show 0 < 100 by decide)
  omega

/-- Helper: the quantity field of a generated record. -/
theorem randomProduct_qty (rng : Nat → Nat) (j : Nat) :
    Record.get (randomProduct rng j) "quantity" =
      some (.int (randQty rng (25 * j + 24))) :=
  rfl

/-- Helper: the seeding loop, on a normal return, has inserted
exactly one record per iteration and returned one well-formed name
per iteration, every inserted quantity lying in `[1, 100]`. -/
theorem add_random_loop_spec (c : ProductClient) (rng : Nat → Nat)
    (net : Nat → Response × Response × Response) :
    ∀ (m : Nat) (st : AuthState) (j : Nat) (names : List String),
      (add_random_loop c rng net st j m).result = .ok names →
      names.length = m ∧
      (add_random_loop c rng net st j m).inserted.length = m ∧
      (∀ name ∈ names, ∃ cs : List Char, name = "Producto-" ++ String.mk cs ∧
          cs.length = 8 ∧ ∀ ch ∈ cs, ch ∈ alphanum) ∧
      (∀ p ∈ (add_random_loop c rng net st j m).inserted,
          ∃ q : Int, Record.get p "quantity" = some (.int q) ∧ 1 ≤ q ∧ q ≤ 100) := by
  intro m
  induction m with
  | zero =>
      intro st j names h
      simp only [add_random_loop] at h ⊢
      cases h
      simp
  | succ m ih =>
      intro st j names h
      unfold add_random_loop at h ⊢
      rcases hnet : net j with ⟨r1, rr, r2⟩
      rw [hnet] at h
      dsimp only at h ⊢
      rcases hadd : add_product c (randomProduct rng j) st r1 rr r2 with ⟨st1, res⟩
      rw [hadd] at h
      dsimp only at h ⊢
      cases res with
      | error e => simp at h
      | ok b =>
          dsimp only at h ⊢
          cases hrest : (add_random_loop c rng net st1 (j + 1) m).result with
          | error e =>
              rw [hrest] at h
              simp at h
          | ok ns =>
            rw [hrest] at h
            dsimp only at h ⊢
            simp only [Except.ok.injEq] at h
            subst h
            obtain ⟨hlen, hins, hnames, hqty⟩ := ih st1 (j + 1) ns hrest
            refine ⟨by simp [hlen], by simp [hins], ?_, ?_⟩
            · intro name hname
              rcases List.mem_cons.mp hname with hname | hname
              · subst hname
                refine ⟨randChars rng (25 * j) 8, rfl, randChars_length rng _ 8, ?_⟩
                intro ch hch
                exact mem_randChars rng _ 8 ch hch
              · exact hnames name hname
            · intro p hp
              rcases List.mem_cons.mp hp with hp | hp
              · subst hp
                exact ⟨randQty rng (25 * j + 24), randomProduct_qty rng j,
                  randQty_bounds rng (25 * j + 24)⟩
              · exact hqty p hp

/-- C8: when all inserts succeed, `add_random_products(n)` performs
exactly `n` insert calls sequentially and returns exactly `n`
generated names, each of the form `Producto-` followed by exactly 8
characters drawn from the alphanumeric population, and every inserted
record's quantity lies in `[1, 100]`. -/
theorem add_random_products_spec (c : ProductClient) (st : AuthState) (n : Nat)
    (rng : Nat → Nat) (net : Nat → Response × Response × Response)
    (names : List String)
    (h : (add_random_products c st n rng net).result = .ok names) :
    names.length = n ∧
    (add_random_products c st n rng net).inserted.length = n ∧
    (∀ name ∈ names, ∃ cs : List Char, name = "Producto-" ++ String.mk cs ∧
        cs.length = 8 ∧ ∀ ch ∈ cs, ch ∈ alphanum) ∧
    (∀ p ∈ (add_random_products c st n rng net).inserted,
        ∃ q : Int, Record.get p "quantity" = some (.int q) ∧ 1 ≤ q ∧ q ≤ 100) :=
  add_random_loop_spec c rng net n st 0 names h

theorem add_random_products_spec_witness :
    (add_random_products ⟨"h", "ct", "Product"⟩ ⟨none, none, none⟩ 1 (fun _ => 0)
        (fun _ => (⟨200, .json none none⟩, ⟨200, .json none none⟩,
          ⟨200, .json none none⟩))).inserted.length = 1 :=
  (add_random_products_spec ⟨"h", "ct", "Product"⟩ ⟨none, none, none⟩ 1 (fun _ => 0)
      (fun _ => (⟨200, .json none none⟩, ⟨200, .json none none⟩,
        ⟨200, .json none none⟩))
      ["Producto-aaaaaaaa"] rfl).2.1

theorem crud_returns_true_witness :
    (add_product ⟨"h", "ct", "Product"⟩ [] ⟨none, none, none⟩
        ⟨200, .json none none⟩ ⟨200, .json none none⟩ ⟨200, .json none none⟩).2
      = .ok true ∧ true = true :=
  ⟨rfl,
    (crud_returns_true ⟨"h", "ct", "Product"⟩ [] (.str "1") [] ⟨none, none, none⟩
        ⟨200, .json none none⟩ ⟨200, .json none none⟩ ⟨200, .json none none⟩ true).1 rfl⟩

end Roble
